import Mathlib

/-!
Shallow embedding of `wsynphot/io/cache_filters.py`.

The module maintains a local disk cache of a filter index and per-filter
transmission curves.  We model:

  * filter-identifier parsing: `re.split('/|\.', filter_id)` followed by
    unpacking into exactly three variables (`splitId`, `parseFilterId`);
  * the on-disk cache as a flat map from path strings to stored VOTables
    (`CacheFS`), with a write log and an error log so that frame conditions
    ("does not rewrite the index file", "logs the failure") are observable;
  * tables (`DataTable`) whose cells are either literal text or UTF-8 byte
    strings, which lets us express `byte_to_literal_strings` and the VOTable
    text-encoding artifact;
  * the external collaborators (`get_filter_index`, `get_transmission_data`
    from `get_filter_data.py`, `set_cache_updation_date` from `config.py`,
    astropy's VOTable writer/parser) as oracle parameters or, where a fixed
    behaviour is needed, definitions modelled from the spec;
  * `remove_empty_dirs` on a genuine directory-tree model (`FSEntry`,
    `FSForest`), since the flat path map cannot represent empty directories.
-/

/-! ## Identifier parsing: `re.split('/|\.', filter_id)` -/

/-- The two delimiter characters accepted by `re.split('/|\.', ...)`. -/
def isDelim (c : Char) : Bool := c = '/' || c = '.'

/-- Splitting a character list at every delimiter occurrence, exactly as
Python's `re.split('/|\.', s)`: adjacent or leading/trailing delimiters
produce empty segments, and the empty string yields one empty segment. -/
def splitChars : List Char → List (List Char)
  | [] => [[]]
  | c :: cs =>
    if isDelim c then [] :: splitChars cs
    else
      match splitChars cs with
      | [] => [[c]]
      | seg :: rest => (c :: seg) :: rest

/-- `re.split('/|\.', filter_id)` on strings. -/
def splitId (s : String) : List String :=
  (splitChars s.data).map String.mk

/-- The unpacking `facility, instrument, filter_name = re.split('/|\.', filter_id)`:
succeeds exactly when the split yields three segments (a Python `ValueError`
otherwise), with no constraint on the segments being non-empty. -/
def parseFilterId (filter_id : String) : Option (String × String × String) :=
  match splitId filter_id with
  | [facility, instrument, filter_name] => some (facility, instrument, filter_name)
  | _ => none

/-- `svo_filter_id = '{0}/{1}.{2}'.format(facility, instrument, filter_name)`. -/
def svoFilterId (facility instrument filter_name : String) : String :=
  facility ++ "/" ++ instrument ++ "." ++ filter_name

/-- `os.path.join` with the POSIX separator. -/
def pjoin (a b : String) : String := a ++ "/" ++ b

/-! ## Tables and the VOTable codec -/

/-- A table cell: either literal text or a UTF-8 byte string carrying the
same decoded content (the artifact normalized by `byte_to_literal_strings`). -/
inductive Cell where
  | strCell (s : String)
  | byteCell (s : String)
  deriving DecidableEq, Repr

/-- The decoded content of a cell (`.str.decode('utf-8')` on byte cells). -/
def cellText : Cell → String
  | .strCell s => s
  | .byteCell s => s

/-- An in-memory table: named columns and rows of cells.  Stands for both
astropy tables and the pandas dataframes derived from them. -/
structure DataTable where
  colNames : List String
  rows : List (List Cell)
  deriving DecidableEq, Repr

/-- Column lookup (`table['name']`), `none` when the column is absent
(a Python `KeyError`). -/
def getColumn (t : DataTable) (name : String) : Option (List Cell) :=
  (t.colNames.indexOf? name).map (fun i => t.rows.map (fun r => r.getD i (.strCell "")))

/-- A column read as text values (`np.array(col, dtype=str)` /
`col.to_numpy()` after byte decoding). -/
def columnStrings (t : DataTable) (name : String) : Option (List String) :=
  (getColumn t name).map (fun cs => cs.map cellText)

/-- Modelled from the spec: astropy's VOTable serialization
(`table.write(format='votable')`) is an external collaborator; the persisted
columnar format stores text fields as UTF-8 bytes, which is exactly the
artifact `byte_to_literal_strings` undoes on read. -/
def encodeVOT (t : DataTable) : DataTable :=
  { t with rows := t.rows.map (fun r => r.map (fun c => .byteCell (cellText c))) }

/-- `byte_to_literal_strings(dataframe)`: every byte-string cell is decoded
to literal text; text cells are untouched. -/
def byte_to_literal_strings (t : DataTable) : DataTable :=
  { t with rows := t.rows.map (fun r => r.map (fun c => .strCell (cellText c))) }

/-! ## The cache filesystem state -/

/-- The on-disk cache: a path-keyed map of stored VOTables, plus a log of
paths written by `cache_as_votable`, the `logger.error` messages emitted,
and the number of `set_cache_updation_date` calls.  Directories are not
represented here (they carry no data); `remove_empty_dirs` is modelled
separately on a real directory tree below. -/
structure CacheFS where
  files : List (String × DataTable)
  writeLog : List String
  errorLog : List String
  timestampTouches : Nat
  deriving DecidableEq, Repr

/-- `os.path.exists` / file lookup on the flat cache model. -/
def CacheFS.lookup (fs : CacheFS) (p : String) : Option DataTable :=
  (fs.files.find? (fun kv => kv.1 == p)).map (fun kv => kv.2)

/-- Whether a cache file exists at a path. -/
def CacheFS.exists? (fs : CacheFS) (p : String) : Bool :=
  (fs.lookup p).isSome

/-- `os.remove(p)`. -/
def CacheFS.removeFile (fs : CacheFS) (p : String) : CacheFS :=
  { fs with files := fs.files.filter (fun kv => kv.1 ≠ p) }

/-- Modelled from the spec: `set_cache_updation_date()` from
`wsynphot.config` (not under `src/`) persists a freshness timestamp
elsewhere; we count its invocations. -/
def CacheFS.touchTimestamp (fs : CacheFS) : CacheFS :=
  { fs with timestampTouches := fs.timestampTouches + 1 }

/-- `logger.error(msg)`. -/
def CacheFS.logError (fs : CacheFS) (msg : String) : CacheFS :=
  { fs with errorLog := msg :: fs.errorLog }

/-- `s.endswith(suff)`, expressed on the underlying character lists. -/
def strEndsWith (s suff : String) : Bool :=
  suff.data.isSuffixOf s.data

/-- The path actually written by `cache_as_votable`: the canonical `.vot`
extension is appended when missing. -/
def votPath (file_path : String) : String :=
  if strEndsWith file_path ".vot" then file_path else file_path ++ ".vot"

/-- `cache_as_votable(table, file_path)`: appends `.vot` if missing, creates
parent directories (no content in the flat model) and writes the table in
the persisted VOTable format, overwriting any existing file at that path. -/
def cache_as_votable (table : DataTable) (file_path : String) (fs : CacheFS) : CacheFS :=
  let fp := votPath file_path
  { fs with
      files := (fp, encodeVOT table) :: fs.files.filter (fun kv => kv.1 ≠ fp)
      writeLog := fp :: fs.writeLog }

/-- Errors raised by the module, one constructor per source raise site. -/
inductive CFError where
  /-- `ValueError` from unpacking `re.split('/|\.', filter_id)` into three
  variables when the split does not have exactly three segments. -/
  | malformedId (filter_id : String)
  /-- whatever `get_transmission_data` (external collaborator) raised. -/
  | fetchFailed (msg : String)
  /-- `KeyError` from a missing `filterID` column. -/
  | keyError (column : String)
  /-- `IOError` from `load_filter_index` when `index.vot` is absent. -/
  | missingIndex (cache_dir : String)
  /-- `IOError` from `load_transmission_data`: the filter is in the index but
  its transmission file is missing. -/
  | inconsistentCache (filter_id : String)
  /-- `ValueError` from `load_transmission_data`: the filter is not in the
  index. -/
  | unknownFilter (filter_id : String)
  deriving DecidableEq, Repr

/-- `df_from_votable(votable_path)`: parse the stored VOTable
(`parse_single_table(path).to_table().to_pandas()`, modelled as reading the
stored table back) and normalize byte strings via
`byte_to_literal_strings`. -/
def df_from_votable (votable_path : String) (fs : CacheFS) : Except CFError DataTable :=
  match fs.lookup votable_path with
  | none => .error (.missingIndex votable_path)
  | some t => .ok (byte_to_literal_strings t)

/-! ## Downloads -/

/-- `download_transmission_data(filter_id, cache_dir)`: parse the identifier
(raising on a bad split), build the SVO form, fetch the transmission table
from the external collaborator `get_transmission_data` (here the oracle
`fetch`, which may fail), and cache it under
`cache_dir/facility/instrument/filter_name`. -/
def download_transmission_data (fetch : String → Except String DataTable)
    (filter_id : String) (cache_dir : String) (fs : CacheFS) :
    Except CFError CacheFS :=
  match parseFilterId filter_id with
  | none => .error (.malformedId filter_id)
  | some (facility, instrument, filter_name) =>
    match fetch (svoFilterId facility instrument filter_name) with
    | .error e => .error (.fetchFailed e)
    | .ok filter_table =>
      .ok (cache_as_votable filter_table
        (pjoin (pjoin (pjoin cache_dir facility) instrument) filter_name) fs)

/-- Rendering of a raised error, standing for Python's `str(e)` in the log
message of the batch loop. -/
def errText : CFError → String
  | .malformedId s => "ValueError: unpacking " ++ s
  | .fetchFailed m => m
  | .keyError c => "KeyError: " ++ c
  | .missingIndex d => "IOError: no index in " ++ d
  | .inconsistentCache s => "IOError: inconsistent cache for " ++ s
  | .unknownFilter s => "ValueError: unknown filter " ++ s

/-- The `logger.error` message of the batch loop, carrying the failing
identifier and the cause. -/
def dlFailMsg (filter_id : String) (e : CFError) : String :=
  "Data for filter ID = " ++ filter_id ++ " could not be downloaded due to: " ++ errText e

/-- `iterative_download_transmission_data(filter_ids, cache_dir)`: for each
identifier, attempt `download_transmission_data`; any exception it raises is
caught, logged with the identifier and cause, and iteration continues (the
tqdm progress bar has no semantic effect).  The function itself never
raises, which the embedding reflects by returning a plain `CacheFS`. -/
def iterative_download_transmission_data (fetch : String → Except String DataTable)
    (filter_ids : List String) (cache_dir : String) (fs : CacheFS) : CacheFS :=
  filter_ids.foldl (fun st filter_id =>
    match download_transmission_data fetch filter_id cache_dir st with
    | .ok st1 => st1
    | .error e => st.logError (dlFailMsg filter_id e)) fs

/-! ## Loading cached data -/

/-- `load_filter_index(cache_dir)` in state-passing form: the second
component is the cache state after the call, which lets frame properties be
stated on every path, including the raising ones. -/
def load_filter_indexFS (cache_dir : String) (fs : CacheFS) :
    Except CFError DataTable × CacheFS :=
  let filter_index_loc := pjoin cache_dir "index.vot"
  if fs.exists? filter_index_loc then
    (df_from_votable filter_index_loc fs, fs)
  else
    (.error (.missingIndex cache_dir), fs)

/-- `load_filter_index(cache_dir)`: the returned dataframe (or error). -/
def load_filter_index (cache_dir : String) (fs : CacheFS) : Except CFError DataTable :=
  (load_filter_indexFS cache_dir fs).1

/-- `load_transmission_data(filter_id, cache_dir)` in state-passing form:
parse the identifier, look for the cached per-filter file; when it is
missing, load the index and distinguish `InconsistentCache` (SVO form
present in the index) from `UnknownFilter` (absent). -/
def load_transmission_dataFS (filter_id : String) (cache_dir : String) (fs : CacheFS) :
    Except CFError DataTable × CacheFS :=
  match parseFilterId filter_id with
  | none => (.error (.malformedId filter_id), fs)
  | some (facility, instrument, filter_name) =>
    let transmission_data_loc :=
      pjoin (pjoin (pjoin cache_dir facility) instrument) (filter_name ++ ".vot")
    if fs.exists? transmission_data_loc then
      (df_from_votable transmission_data_loc fs, fs)
    else
      match load_filter_indexFS cache_dir fs with
      | (.error e, fs1) => (.error e, fs1)
      | (.ok index, fs1) =>
        match columnStrings index "filterID" with
        | none => (.error (.keyError "filterID"), fs1)
        | some ids =>
          if (svoFilterId facility instrument filter_name) ∈ ids then
            (.error (.inconsistentCache filter_id), fs1)
          else
            (.error (.unknownFilter filter_id), fs1)

/-- `load_transmission_data(filter_id, cache_dir)`: the returned dataframe
(or error). -/
def load_transmission_data (filter_id : String) (cache_dir : String) (fs : CacheFS) :
    Except CFError DataTable :=
  (load_transmission_dataFS filter_id cache_dir fs).1

/-! ## The sync reconciler: `update_filter_data` -/

/-- Lexicographic order on strings via the core `compare`, used to model the
sortedness of `np.setdiff1d`'s result. -/
def strLe (a b : String) : Bool := compare a b ≠ Ordering.gt

/-- Insertion into a sorted list of strings. -/
def insertSorted (x : String) : List String → List String
  | [] => [x]
  | y :: ys => if strLe x y then x :: y :: ys else y :: insertSorted x ys

/-- Sorting a list of strings. -/
def sortStrings (l : List String) : List String := l.foldr insertSorted []

/-- `np.setdiff1d(a, b)`: the sorted unique values of `a` not contained
in `b`. -/
def setdiff1d (a b : List String) : List String :=
  sortStrings ((a.filter (fun x => !(b.contains x))).dedup)

/-- The removal loop of `update_filter_data`: for each outdated filter ID,
unpack it with `re.split` (an ID that does not split into three segments
raises a `ValueError` that propagates), build
`cache_dir/facility/instrument/filter_name.vot` and delete the file if it
exists (its absence is tolerated). -/
def removeOutdatedFilters : List String → String → CacheFS → Except CFError CacheFS
  | [], _, fs => .ok fs
  | filter_id :: rest, cache_dir, fs =>
    match parseFilterId filter_id with
    | none => .error (.malformedId filter_id)
    | some (facility, instrument, filter_name) =>
      let filter_file :=
        pjoin (pjoin (pjoin cache_dir facility) instrument) (filter_name ++ ".vot")
      let fs1 := if fs.exists? filter_file then fs.removeFile filter_file else fs
      removeOutdatedFilters rest cache_dir fs1

/-- `update_filter_data(cache_dir)`: load the cached index (raising
`MissingIndex` when absent), fetch the fresh index from the external
collaborator `get_filter_index` (the parameter `new_index`), and compare the
two `filterID` columns with `np.array_equal` — element-wise, so order- and
multiplicity-sensitive.  If equal: touch the timestamp and return `false`
without writing anything.  Otherwise remove the files of outdated filters,
prune empty directories (no effect on the flat file map — see
`remove_empty_dirs` on the tree model, which deletes no file), download the
new filters with the continue-on-error batch loop, overwrite the cached
index with the fresh one, touch the timestamp and return `true`. -/
def update_filter_data (fetch : String → Except String DataTable)
    (new_index : DataTable) (cache_dir : String) (fs : CacheFS) :
    Except CFError (Bool × CacheFS) :=
  match load_filter_index cache_dir fs with
  | .error e => .error e
  | .ok old_index =>
    match columnStrings old_index "filterID" with
    | none => .error (.keyError "filterID")
    | some old_filters =>
      match columnStrings new_index "filterID" with
      | none => .error (.keyError "filterID")
      | some new_filters =>
        if old_filters = new_filters then
          .ok (false, fs.touchTimestamp)
        else
          let filters_to_remove := setdiff1d old_filters new_filters
          match removeOutdatedFilters filters_to_remove cache_dir fs with
          | .error e => .error e
          | .ok fs1 =>
            let filters_to_add := setdiff1d new_filters old_filters
            let fs2 := iterative_download_transmission_data fetch filters_to_add cache_dir fs1
            let fs3 := cache_as_votable new_index (pjoin cache_dir "index") fs2
            .ok (true, fs3.touchTimestamp)

/-! ## Directory pruning: `remove_empty_dirs` on a directory tree

`os.walk(root_dir, topdown=False)` visits directories bottom-up; each
subdirectory found empty (`not os.listdir(dirpath)`) is removed with
`os.rmdir`.  Because children are processed before their parent is checked
at the grandparent's level, a parent emptied by the removal of its children
is itself removed; the walk never applies `os.rmdir` to `root_dir` itself,
which is only ever a walk root.  The recursive functions below compute the
same result on an explicit tree. -/

mutual

/-- One filesystem entry: a file (content irrelevant to pruning) or a
directory with its entries. -/
inductive FSEntry : Type where
  | file : String → FSEntry
  | dir : String → FSForest → FSEntry
  deriving DecidableEq, Repr

/-- A list of sibling filesystem entries. -/
inductive FSForest : Type where
  | nil : FSForest
  | cons : FSEntry → FSForest → FSForest
  deriving DecidableEq, Repr

end

/-- Whether a forest has no entries (`not os.listdir(dirpath)`). -/
def FSForest.isNil : FSForest → Bool
  | .nil => true
  | .cons _ _ => false

mutual

/-- Pruning one entry: files are kept; a directory has its entries pruned
first (the bottom-up order of `os.walk(topdown=False)`) and is then removed
(`none`) exactly when nothing is left inside it. -/
def pruneEntry : FSEntry → Option FSEntry
  | .file n => some (.file n)
  | .dir n es =>
    match pruneForest es with
    | .nil => none
    | es1 => some (.dir n es1)

/-- Pruning every entry of a forest, dropping directories that end up
empty. -/
def pruneForest : FSForest → FSForest
  | .nil => .nil
  | .cons e es =>
    match pruneEntry e with
    | none => pruneForest es
    | some e1 => .cons e1 (pruneForest es)

end

/-- `remove_empty_dirs(root_dir)`: the contents of `root_dir` after the
bottom-up empty-directory sweep.  The root itself is returned (never
removed), even when it ends up empty. -/
def remove_empty_dirs (root_entries : FSForest) : FSForest :=
  pruneForest root_entries

mutual

/-- The paths (as reversed-free component lists) of every file under one
entry. -/
def entryFilePaths : FSEntry → List (List String)
  | .file n => [[n]]
  | .dir n es => (forestFilePaths es).map (fun p => n :: p)

/-- The paths of every file in a forest. -/
def forestFilePaths : FSForest → List (List String)
  | .nil => []
  | .cons e es => entryFilePaths e ++ forestFilePaths es

end

mutual

/-- Every directory in this entry (itself included, when it is one) has at
least one entry. -/
def entryNoEmptyDir : FSEntry → Bool
  | .file _ => true
  | .dir _ es => !es.isNil && forestNoEmptyDir es

/-- Every directory anywhere in the forest has at least one entry. -/
def forestNoEmptyDir : FSForest → Bool
  | .nil => true
  | .cons e es => entryNoEmptyDir e && forestNoEmptyDir es

end

/-! ## Derived observers and concrete scenario data

Plain definitions used by the theorems below: observers on results, and the
concrete indices, tables, caches and fetch oracles of the scenario-based
theorems and witnesses. -/

/-- The state-independent outcome of one `download_transmission_data` call:
`none` when it succeeds, `some e` when it raises `e` (a bad split or a
failing fetch — the write itself cannot fail in the model). -/
def downloadOutcome (fetch : String → Except String DataTable)
    (filter_id : String) : Option CFError :=
  match parseFilterId filter_id with
  | none => some (.malformedId filter_id)
  | some (f, i, n) =>
    match fetch (svoFilterId f i n) with
    | .error e => some (.fetchFailed e)
    | .ok _ => none

/-- The returned boolean of `update_filter_data`, when it did not raise. -/
def updateResultBool (r : Except CFError (Bool × CacheFS)) : Option Bool :=
  r.toOption.map Prod.fst

/-- The cache state after `update_filter_data`, when it did not raise. -/
def updateResultFS (r : Except CFError (Bool × CacheFS)) : Option CacheFS :=
  r.toOption.map Prod.snd

/-- A sample table used by concrete scenarios. -/
def sampleTable : DataTable := ⟨["Wavelength"], [[.strCell "5500"]]⟩

/-- The empty cache state. -/
def emptyFS : CacheFS := ⟨[], [], [], 0⟩

/-- A fetch oracle that succeeds on every identifier. -/
def wFetch : String → Except String DataTable := fun _ => .ok sampleTable

/-- A cached index listing `a/b.c` then `d/e.f`. -/
def cexOldIdx : DataTable := ⟨["filterID"], [[.strCell "a/b.c"], [.strCell "d/e.f"]]⟩

/-- A fresh index listing the same two filters in the opposite order. -/
def cexFreshIdx : DataTable := ⟨["filterID"], [[.strCell "d/e.f"], [.strCell "a/b.c"]]⟩

/-- A cache whose index file holds `cexOldIdx`. -/
def cexFS1 : CacheFS := ⟨[("cache/index.vot", encodeVOT cexOldIdx)], [], [], 0⟩

/-- A one-filter index used to witness the no-change branch. -/
def w1Idx : DataTable := ⟨["filterID"], [[.strCell "a/b.c"]]⟩

/-- A cache whose index file holds `w1Idx`. -/
def w1FS : CacheFS := ⟨[("cache/index.vot", encodeVOT w1Idx)], [], [], 0⟩

/-- An index containing the single SVO identifier `f/i.n`. -/
def w3Idx : DataTable := ⟨["filterID"], [[.strCell "f/i.n"]]⟩

/-- A cache with that index and no transmission files. -/
def w3FS : CacheFS := ⟨[("cache/index.vot", encodeVOT w3Idx)], [], [], 0⟩

/-- Transmission table cached for filter A. -/
def tA : DataTable := ⟨["w"], [[.strCell "1"]]⟩

/-- Transmission table cached for filter B. -/
def tB : DataTable := ⟨["w"], [[.strCell "2"]]⟩

/-- Transmission table cached for filter C. -/
def tC : DataTable := ⟨["w"], [[.strCell "3"]]⟩

/-- Transmission table the remote serves for filter D. -/
def tD : DataTable := ⟨["w"], [[.strCell "4"]]⟩

/-- Cached index listing filters A, B, C. -/
def c5OldIdx : DataTable :=
  ⟨["filterID"], [[.strCell "facA/insA.fA"], [.strCell "facB/insB.fB"],
    [.strCell "facC/insC.fC"]]⟩

/-- Fresh index listing filters B, C, D. -/
def c5FreshIdx : DataTable :=
  ⟨["filterID"], [[.strCell "facB/insB.fB"], [.strCell "facC/insC.fC"],
    [.strCell "facD/insD.fD"]]⟩

/-- Remote oracle: only filter D is served. -/
def c5Fetch : String → Except String DataTable := fun s =>
  if s = "facD/insD.fD" then .ok tD else .error "unexpected fetch"

/-- Cache holding the old index and files for A, B, C. -/
def c5FS : CacheFS :=
  ⟨[("cache/index.vot", encodeVOT c5OldIdx),
    ("cache/facA/insA/fA.vot", encodeVOT tA),
    ("cache/facB/insB/fB.vot", encodeVOT tB),
    ("cache/facC/insC/fC.vot", encodeVOT tC)], [], [], 0⟩

/-- The same cache with A's file already absent (prior partial state). -/
def c5FSnoA : CacheFS :=
  ⟨[("cache/index.vot", encodeVOT c5OldIdx),
    ("cache/facB/insB/fB.vot", encodeVOT tB),
    ("cache/facC/insC/fC.vot", encodeVOT tC)], [], [], 0⟩

/-- Cached index for the C8 counterexample: one filter `p/q.r`. -/
def c8OldIdx : DataTable := ⟨["filterID"], [[.strCell "p/q.r"]]⟩

/-- Fresh index for the C8 counterexample: one different filter `s/t.u`. -/
def c8FreshIdx : DataTable := ⟨["filterID"], [[.strCell "s/t.u"]]⟩

/-- Cache holding only the old index. -/
def c8FS : CacheFS := ⟨[("cache/index.vot", encodeVOT c8OldIdx)], [], [], 0⟩

/-! ## C6: pruning empty directories -/

/-- File paths contributed by an optional entry: a pruned-away directory
contributes none. -/
def optFilePaths : Option FSEntry → List (List String)
  | none => []
  | some e => entryFilePaths e

/-- No-empty-directory check on an optional entry. -/
def optNoEmptyDir : Option FSEntry → Bool
  | none => true
  | some e => entryNoEmptyDir e

mutual

theorem pruneEntry_filePaths : ∀ e : FSEntry, optFilePaths (pruneEntry e) = entryFilePaths e
  | .file n => rfl
  | .dir n es => by
    have h := pruneForest_filePaths es
    rw [pruneEntry]
    rcases hp : pruneForest es with _ | ⟨e1, es1⟩
    · rw [hp] at h
      simp only [forestFilePaths] at h
      simp [optFilePaths, entryFilePaths, ← h]
    · rw [hp] at h
      simp [optFilePaths, entryFilePaths, h]

theorem pruneForest_filePaths :
    ∀ f : FSForest, forestFilePaths (pruneForest f) = forestFilePaths f
  | .nil => rfl
  | .cons e es => by
    have h1 := pruneEntry_filePaths e
    have h2 := pruneForest_filePaths es
    rw [pruneForest]
    rcases hp : pruneEntry e with _ | e1
    · rw [hp] at h1
      simp only [optFilePaths] at h1
      simp [forestFilePaths, h2, ← h1]
    · rw [hp] at h1
      simp only [optFilePaths] at h1
      simp [forestFilePaths, h1, h2]

end

mutual

theorem pruneEntry_noEmptyDir : ∀ e : FSEntry, optNoEmptyDir (pruneEntry e) = true
  | .file _ => rfl
  | .dir n es => by
    have h := pruneForest_noEmptyDir es
    rw [pruneEntry]
    rcases hp : pruneForest es with _ | ⟨e1, es1⟩
    · rfl
    · rw [hp] at h
      simp [optNoEmptyDir, entryNoEmptyDir, FSForest.isNil, h]

theorem pruneForest_noEmptyDir :
    ∀ f : FSForest, forestNoEmptyDir (pruneForest f) = true
  | .nil => rfl
  | .cons e es => by
    have h1 := pruneEntry_noEmptyDir e
    have h2 := pruneForest_noEmptyDir es
    rw [pruneForest]
    rcases hp : pruneEntry e with _ | e1
    · exact h2
    · rw [hp] at h1
      simp only [optNoEmptyDir] at h1
      simp [forestNoEmptyDir, h1, h2]

end

/-- C6 (confirmed): the bottom-up empty-directory sweep preserves every file
(same set of file paths, so no file and no directory on a file's path is
removed), removes every directory left with zero entries — including a
parent emptied by the removal of its children, since no empty directory
remains anywhere strictly below the root — and never removes the root,
whose surviving entries are exactly what it returns. -/
theorem C6_remove_empty_dirs_correct (t : FSForest) :
    forestFilePaths (remove_empty_dirs t) = forestFilePaths t ∧
    forestNoEmptyDir (remove_empty_dirs t) = true :=
  ⟨pruneForest_filePaths t, pruneForest_noEmptyDir t⟩

/-! ## Lemmas about identifier splitting -/

theorem splitChars_ne_nil (l : List Char) : splitChars l ≠ [] := by
  induction l with
  | nil => simp [splitChars]
  | cons c cs ih =>
    rw [splitChars]
    split
    · simp
    · rcases h : splitChars cs with _ | ⟨seg, rest⟩
      · exact absurd h ih
      · simp [h]

theorem splitChars_no_delim (a : List Char) (h : ∀ c ∈ a, isDelim c = false) :
    splitChars a = [a] := by
  induction a with
  | nil => rfl
  | cons c cs ih =>
    have hc : isDelim c = false := h c (by simp)
    have ih1 : splitChars cs = [cs] := ih (fun x hx => h x (by simp [hx]))
    rw [splitChars, hc]
    simp [ih1]

theorem splitChars_append_delim (a : List Char) (d : Char) (r : List Char)
    (ha : ∀ c ∈ a, isDelim c = false) (hd : isDelim d = true) :
    splitChars (a ++ d :: r) = a :: splitChars r := by
  induction a with
  | nil => simp [splitChars, hd]
  | cons c cs ih =>
    have hc : isDelim c = false := ha c (by simp)
    have ih1 : splitChars (cs ++ d :: r) = cs :: splitChars r :=
      ih (fun x hx => ha x (by simp [hx]))
    rw [List.cons_append, splitChars, hc]
    simp [ih1]

/-- A delimiter-free string, a delimiter, another delimiter-free string, a
delimiter, and a final delimiter-free string split into exactly the three
component strings, for any mix of the two delimiters. -/
theorem splitId_styled (f i n : String) (d1 d2 : Char)
    (hf : ∀ c ∈ f.data, isDelim c = false)
    (hi : ∀ c ∈ i.data, isDelim c = false)
    (hn : ∀ c ∈ n.data, isDelim c = false)
    (hd1 : isDelim d1 = true) (hd2 : isDelim d2 = true) :
    splitId (f ++ d1.toString ++ i ++ d2.toString ++ n) = [f, i, n] := by
  have hdata : (f ++ d1.toString ++ i ++ d2.toString ++ n).data
      = f.data ++ d1 :: (i.data ++ d2 :: n.data) := by
    simp [String.data_append]
    rfl
  rw [splitId, hdata, splitChars_append_delim f.data d1 _ hf hd1,
    splitChars_append_delim i.data d2 _ hi hd2, splitChars_no_delim n.data hn]
  rfl

theorem parseFilterId_styled (f i n : String) (d1 d2 : Char)
    (hf : ∀ c ∈ f.data, isDelim c = false)
    (hi : ∀ c ∈ i.data, isDelim c = false)
    (hn : ∀ c ∈ n.data, isDelim c = false)
    (hd1 : isDelim d1 = true) (hd2 : isDelim d2 = true) :
    parseFilterId (f ++ d1.toString ++ i ++ d2.toString ++ n) = some (f, i, n) := by
  rw [parseFilterId, splitId_styled f i n d1 d2 hf hi hn hd1 hd2]

/-! ## C2: which identifiers are rejected -/

/-- Parsing fails exactly when the split does not have three segments;
emptiness of the segments plays no role. -/
theorem parseFilterId_eq_none_iff (filter_id : String) :
    parseFilterId filter_id = none ↔ (splitId filter_id).length ≠ 3 := by
  rw [parseFilterId]
  rcases h : splitId filter_id with _ | ⟨a, _ | ⟨b, _ | ⟨c, _ | ⟨d, rest⟩⟩⟩⟩ <;> simp

/-- The second component of the state-passing index load is always the
unchanged input state. -/
theorem load_filter_indexFS_snd (cache_dir : String) (fs : CacheFS) :
    (load_filter_indexFS cache_dir fs).2 = fs := by
  rw [load_filter_indexFS]
  split <;> rfl

/-- State-passing and plain index load agree. -/
theorem load_filter_indexFS_eq (cache_dir : String) (fs : CacheFS) :
    load_filter_indexFS cache_dir fs = (load_filter_index cache_dir fs, fs) := by
  exact Prod.ext rfl (load_filter_indexFS_snd cache_dir fs)

/-- `load_filter_index` never raises the identifier-unpacking error. -/
theorem load_filter_index_ne_malformed (cache_dir : String) (fs : CacheFS)
    (s : String) : load_filter_index cache_dir fs ≠ .error (.malformedId s) := by
  rw [load_filter_index, load_filter_indexFS]
  split
  · dsimp only
    rw [df_from_votable]
    split <;> simp
  · simp

/-- `load_transmission_data` never raises the identifier-unpacking error on
an identifier that parses. -/
theorem load_transmission_ne_malformed (filter_id cache_dir : String) (fs : CacheFS)
    (f i n : String) (hp : parseFilterId filter_id = some (f, i, n)) (s : String) :
    load_transmission_data filter_id cache_dir fs ≠ .error (.malformedId s) := by
  rw [load_transmission_data, load_transmission_dataFS, hp]
  dsimp only
  split
  · rw [df_from_votable]
    split <;> simp
  · rw [load_filter_indexFS_eq]
    rcases hli : load_filter_index cache_dir fs with e | index
    · intro h
      simp at h
      rw [h] at hli
      exact load_filter_index_ne_malformed cache_dir fs s hli
    · rcases hcol : columnStrings index "filterID" with _ | ids
      · simp [hcol]
      · simp only [hcol]
        split <;> simp

/-- C2 (corrected): `download_transmission_data` and `load_transmission_data`
raise the identifier-unpacking `ValueError` exactly when splitting on `/` or
`.` yields a number of segments different from three; an identifier whose
three segments include empty ones is accepted, contrary to the claim. -/
theorem C2_malformed_iff_not_three_segments
    (fetch : String → Except String DataTable)
    (filter_id cache_dir : String) (fs : CacheFS) :
    (download_transmission_data fetch filter_id cache_dir fs
        = .error (.malformedId filter_id) ↔ (splitId filter_id).length ≠ 3) ∧
    (load_transmission_data filter_id cache_dir fs
        = .error (.malformedId filter_id) ↔ (splitId filter_id).length ≠ 3) := by
  constructor
  · rw [← parseFilterId_eq_none_iff]
    constructor
    · intro h
      rcases hp : parseFilterId filter_id with _ | ⟨f, i, n⟩
      · rfl
      · rw [download_transmission_data, hp] at h
        rcases hf : fetch (svoFilterId f i n) with e | t <;> simp [hf] at h
    · intro h
      rw [download_transmission_data, h]
  · rw [← parseFilterId_eq_none_iff]
    constructor
    · intro h
      rcases hp : parseFilterId filter_id with _ | ⟨f, i, n⟩
      · rfl
      · exact absurd h (load_transmission_ne_malformed filter_id cache_dir fs f i n hp _)
    · intro h
      rw [load_transmission_data, load_transmission_dataFS, h]

/-! ## C3: the two missing-file errors are distinguished -/

/-- C3 (confirmed): for a well-formed identifier whose per-filter file is
absent, `load_transmission_data` raises `InconsistentCache` exactly when the
canonical SVO form is present in the cached index's `filterID` column, and
`UnknownFilter` exactly when it is absent; the two errors are distinct
constructors, hence distinguishable by the caller. -/
theorem C3_missing_file_error_discrimination
    (filter_id cache_dir : String) (fs : CacheFS) (f i n : String)
    (index : DataTable) (ids : List String)
    (hp : parseFilterId filter_id = some (f, i, n))
    (habs : fs.exists? (pjoin (pjoin (pjoin cache_dir f) i) (n ++ ".vot")) = false)
    (hidx : load_filter_index cache_dir fs = .ok index)
    (hcol : columnStrings index "filterID" = some ids) :
    (load_transmission_data filter_id cache_dir fs
        = .error (.inconsistentCache filter_id) ↔ svoFilterId f i n ∈ ids) ∧
    (load_transmission_data filter_id cache_dir fs
        = .error (.unknownFilter filter_id) ↔ svoFilterId f i n ∉ ids) ∧
    (∀ a b : String, CFError.inconsistentCache a ≠ CFError.unknownFilter b) := by
  refine ⟨?_, ?_, fun a b => by simp⟩ <;>
    · simp only [load_transmission_data, load_transmission_dataFS, hp, habs,
        load_filter_indexFS_eq, hidx, hcol, Bool.false_eq_true, if_false]
      by_cases hm : svoFilterId f i n ∈ ids <;> simp [hm]

/-- Witness for C3: identifier `f/i/n` has no cached file; it is listed in
the index, so the load fails with `InconsistentCache` and not with
`UnknownFilter`. -/
theorem C3_missing_file_error_discrimination_witness :
    (load_transmission_data "f/i/n" "cache" w3FS
        = .error (.inconsistentCache "f/i/n") ↔ svoFilterId "f" "i" "n" ∈ ["f/i.n"]) ∧
    (load_transmission_data "f/i/n" "cache" w3FS
        = .error (.unknownFilter "f/i/n") ↔ svoFilterId "f" "i" "n" ∉ ["f/i.n"]) ∧
    (∀ a b : String, CFError.inconsistentCache a ≠ CFError.unknownFilter b) := by
  exact C3_missing_file_error_discrimination "f/i/n" "cache" w3FS "f" "i" "n"
    ⟨["filterID"], [[.strCell "f/i.n"]]⟩ ["f/i.n"]
    (by decide) (by decide) (by rfl) (by decide)

/-! ## C10: loads never modify the cache -/

/-- C10 (confirmed): `load_filter_index` and `load_transmission_data` return
the cache state unchanged on every path — on success and on each of the
`MissingIndex`, `InconsistentCache`, `UnknownFilter` (and malformed
identifier) raises; neither creates, modifies, or deletes anything. -/
theorem C10_loads_do_not_modify_cache (cache_dir : String) (fs : CacheFS) :
    (load_filter_indexFS cache_dir fs).2 = fs ∧
    ∀ filter_id, (load_transmission_dataFS filter_id cache_dir fs).2 = fs := by
  refine ⟨load_filter_indexFS_snd cache_dir fs, fun filter_id => ?_⟩
  rw [load_transmission_dataFS]
  split
  · rfl
  · dsimp only
    split
    · rfl
    · rw [load_filter_indexFS_eq]
      rcases load_filter_index cache_dir fs with e | index
      · rfl
      · rcases hcol : columnStrings index "filterID" with _ | ids
        · simp [hcol]
        · simp only [hcol]
          split <;> rfl

/-! ## C7: serialize/parse round trip -/

@[simp] theorem cellText_strCell (s : String) : cellText (.strCell s) = s := rfl

@[simp] theorem cellText_byteCell (s : String) : cellText (.byteCell s) = s := rfl

/-- Reading back an encoded table normalizes to the same dataframe as
normalizing the original table. -/
theorem byte_to_literal_strings_encodeVOT (t : DataTable) :
    byte_to_literal_strings (encodeVOT t) = byte_to_literal_strings t := by
  simp [byte_to_literal_strings, encodeVOT, List.map_map, Function.comp]

/-- C7 (confirmed, on the spec-modelled codec): serializing a table with
`cache_as_votable` and parsing the written path back with `df_from_votable`
yields exactly the text-normalized original — same column names, same row
count, and cell values equal once byte strings are normalized to literal
text (normalization is idempotent, so the result and the original agree
post-normalization). -/
theorem C7_votable_roundtrip (t : DataTable) (file_path : String) (fs : CacheFS) :
    df_from_votable (votPath file_path) (cache_as_votable t file_path fs)
      = .ok (byte_to_literal_strings t) ∧
    (byte_to_literal_strings t).colNames = t.colNames ∧
    (byte_to_literal_strings t).rows.length = t.rows.length ∧
    byte_to_literal_strings (byte_to_literal_strings t) = byte_to_literal_strings t := by
  refine ⟨?_, rfl, by simp [byte_to_literal_strings], ?_⟩
  · simp [df_from_votable, cache_as_votable, CacheFS.lookup, List.find?,
      byte_to_literal_strings_encodeVOT]
  · simp [byte_to_literal_strings, List.map_map, Function.comp]

/-! ## C9: delimiter styles are interchangeable -/

/-- C9 (confirmed): the slash form, the dot form, and any mixed-delimiter
form of the same three components parse to the identical
(facility, instrument, filterName) triple; consequently
`download_transmission_data` behaves identically on all styles (same SVO
remote form, same storage path) and `load_transmission_data` succeeds with
the same table on one style exactly when it does on another. -/
theorem C9_delimiter_styles_equivalent
    (fetch : String → Except String DataTable)
    (f i n cache_dir : String) (fs : CacheFS) (d1 d2 d3 d4 : Char)
    (hf : ∀ c ∈ f.data, isDelim c = false)
    (hi : ∀ c ∈ i.data, isDelim c = false)
    (hn : ∀ c ∈ n.data, isDelim c = false)
    (hd1 : isDelim d1 = true) (hd2 : isDelim d2 = true)
    (hd3 : isDelim d3 = true) (hd4 : isDelim d4 = true) :
    parseFilterId (f ++ d1.toString ++ i ++ d2.toString ++ n) = some (f, i, n) ∧
    download_transmission_data fetch (f ++ d1.toString ++ i ++ d2.toString ++ n) cache_dir fs
      = download_transmission_data fetch (f ++ d3.toString ++ i ++ d4.toString ++ n) cache_dir fs ∧
    ∀ t, load_transmission_data (f ++ d1.toString ++ i ++ d2.toString ++ n) cache_dir fs = .ok t
      ↔ load_transmission_data (f ++ d3.toString ++ i ++ d4.toString ++ n) cache_dir fs
          = .ok t := by
  have h12 := parseFilterId_styled f i n d1 d2 hf hi hn hd1 hd2
  have h34 := parseFilterId_styled f i n d3 d4 hf hi hn hd3 hd4
  refine ⟨h12, ?_, ?_⟩
  · rw [download_transmission_data, download_transmission_data, h12, h34]
  · intro t
    rw [load_transmission_data, load_transmission_dataFS, h12,
      load_transmission_data, load_transmission_dataFS, h34]
    dsimp only
    split
    · exact Iff.rfl
    · rw [load_filter_indexFS_eq]
      rcases hli : load_filter_index cache_dir fs with e | index
      · simp
      · rcases hcol : columnStrings index "filterID" with _ | ids
        · simp [hcol]
        · simp only [hcol]
          split <;> simp

/-- Witness for C9 at a concrete identifier: `SLOAN/SDSS.r` versus
`SLOAN.SDSS/r`. -/
theorem C9_delimiter_styles_witness :
    parseFilterId ("SLOAN" ++ '/'.toString ++ "SDSS" ++ '.'.toString ++ "r")
      = some ("SLOAN", "SDSS", "r") ∧
    download_transmission_data (fun _ => .ok sampleTable)
        ("SLOAN" ++ '/'.toString ++ "SDSS" ++ '.'.toString ++ "r") "cache" emptyFS
      = download_transmission_data (fun _ => .ok sampleTable)
        ("SLOAN" ++ '.'.toString ++ "SDSS" ++ '/'.toString ++ "r") "cache" emptyFS ∧
    (load_transmission_data ("SLOAN" ++ '/'.toString ++ "SDSS" ++ '.'.toString ++ "r")
        "cache" emptyFS = .ok sampleTable
      ↔ load_transmission_data ("SLOAN" ++ '.'.toString ++ "SDSS" ++ '/'.toString ++ "r")
        "cache" emptyFS = .ok sampleTable) := by
  obtain ⟨h1, h2, h3⟩ := C9_delimiter_styles_equivalent (fun _ => .ok sampleTable)
    "SLOAN" "SDSS" "r" "cache" emptyFS '/' '.' '.' '/'
    (by decide) (by decide) (by decide) (by decide) (by decide) (by decide) (by decide)
  exact ⟨h1, h2, h3 sampleTable⟩

/-! ## C4: the batch download never aborts -/

/-- One download raises `e` exactly when its outcome is `some e`, for every
starting state. -/
theorem download_error_iff (fetch : String → Except String DataTable)
    (filter_id cache_dir : String) (fs : CacheFS) (e : CFError) :
    download_transmission_data fetch filter_id cache_dir fs = .error e
      ↔ downloadOutcome fetch filter_id = some e := by
  rw [download_transmission_data, downloadOutcome]
  rcases parseFilterId filter_id with _ | ⟨f, i, n⟩
  · simp
  · rcases hfe : fetch (svoFilterId f i n) with e1 | t <;> simp [hfe]

/-- A successful download caches the fetched table at the resolved storage
path. -/
theorem download_ok_char (fetch : String → Except String DataTable)
    (filter_id cache_dir : String) (fs : CacheFS) (f i n : String) (t : DataTable)
    (hp : parseFilterId filter_id = some (f, i, n))
    (hf : fetch (svoFilterId f i n) = .ok t) :
    download_transmission_data fetch filter_id cache_dir fs
      = .ok (cache_as_votable t (pjoin (pjoin (pjoin cache_dir f) i) n) fs) := by
  simp [download_transmission_data, hp, hf]

/-- Any successful download leaves a state of the shape
`cache_as_votable _ _ fs`. -/
theorem download_ok_shape (fetch : String → Except String DataTable)
    (filter_id cache_dir : String) (fs st1 : CacheFS)
    (h : download_transmission_data fetch filter_id cache_dir fs = .ok st1) :
    ∃ t q, st1 = cache_as_votable t q fs := by
  rw [download_transmission_data] at h
  rcases hp : parseFilterId filter_id with _ | ⟨f, i, n⟩
  · rw [hp] at h
    simp at h
  · rw [hp] at h
    rcases hfe : fetch (svoFilterId f i n) with e1 | t
    · simp [hfe] at h
    · simp [hfe] at h
      exact ⟨t, pjoin (pjoin (pjoin cache_dir f) i) n, h.symm⟩

/-- `cache_as_votable` makes the written path exist. -/
theorem exists_cache_as_votable_self (t : DataTable) (q : String) (fs : CacheFS) :
    (cache_as_votable t q fs).exists? (votPath q) = true := by
  simp [cache_as_votable, CacheFS.exists?, CacheFS.lookup, List.find?]

/-- `cache_as_votable` never deletes an existing file. -/
theorem exists_cache_as_votable_mono (t : DataTable) (q p : String) (fs : CacheFS)
    (h : fs.exists? p = true) : (cache_as_votable t q fs).exists? p = true := by
  rw [CacheFS.exists?, CacheFS.lookup] at h
  rw [Option.isSome_map'] at h
  obtain ⟨kv, hkv, hkvp⟩ := List.find?_isSome.mp h
  rw [cache_as_votable, CacheFS.exists?, CacheFS.lookup, Option.isSome_map']
  by_cases hq : votPath q = p
  · rw [List.find?_cons_of_pos _ (by simp [hq])]
    rfl
  · rw [List.find?_cons_of_neg _ (by simp [hq])]
    refine List.find?_isSome.mpr ⟨kv, List.mem_filter.mpr ⟨hkv, ?_⟩, hkvp⟩
    have hkvp1 : kv.1 = p := by simpa using hkvp
    simp only [hkvp1, decide_eq_true_eq, ne_eq]
    exact fun h1 => hq h1.symm

/-- Unfolding the batch loop one step. -/
theorem iterative_cons (fetch : String → Except String DataTable)
    (filter_id : String) (rest : List String) (cache_dir : String) (fs : CacheFS) :
    iterative_download_transmission_data fetch (filter_id :: rest) cache_dir fs
      = iterative_download_transmission_data fetch rest cache_dir
          (match download_transmission_data fetch filter_id cache_dir fs with
           | .ok st1 => st1
           | .error e => fs.logError (dlFailMsg filter_id e)) := rfl

/-- The batch loop never deletes an existing file. -/
theorem iterative_keeps_file (fetch : String → Except String DataTable)
    (ids : List String) (cache_dir : String) :
    ∀ (fs : CacheFS) (p : String), fs.exists? p = true →
      (iterative_download_transmission_data fetch ids cache_dir fs).exists? p = true := by
  induction ids with
  | nil => exact fun fs p h => h
  | cons id rest ih =>
    intro fs p h
    rw [iterative_cons]
    rcases hd : download_transmission_data fetch id cache_dir fs with e | st1
    · exact ih (fs.logError (dlFailMsg id e)) p h
    · obtain ⟨t, q, rfl⟩ := download_ok_shape fetch id cache_dir fs st1 hd
      exact ih _ p (exists_cache_as_votable_mono t q p fs h)

/-- C4 (confirmed): the batch download is total — it returns a cache state
for every identifier list (never raises, reflected by its type); each
per-item failure is recorded in the error log as one message carrying the
failing identifier and its cause, in iteration order, while iteration
continues; and every identifier whose per-item download succeeds has its
transmission file present in the final cache. -/
theorem C4_batch_continues_on_error (fetch : String → Except String DataTable)
    (ids : List String) (cache_dir : String) :
    ∀ fs : CacheFS,
      (iterative_download_transmission_data fetch ids cache_dir fs).errorLog
        = (ids.filterMap
            (fun id => (downloadOutcome fetch id).map (dlFailMsg id))).reverse
          ++ fs.errorLog ∧
      ∀ id ∈ ids, ∀ f i n t, parseFilterId id = some (f, i, n) →
        fetch (svoFilterId f i n) = .ok t →
        (iterative_download_transmission_data fetch ids cache_dir fs).exists?
          (votPath (pjoin (pjoin (pjoin cache_dir f) i) n)) = true := by
  induction ids with
  | nil =>
    intro fs
    exact ⟨by simp [iterative_download_transmission_data], by simp⟩
  | cons id rest ih =>
    intro fs
    rw [iterative_cons]
    rcases hd : download_transmission_data fetch id cache_dir fs with e | st1
    · have ho : downloadOutcome fetch id = some e :=
        (download_error_iff fetch id cache_dir fs e).mp hd
      obtain ⟨ihlog, ihall⟩ := ih (fs.logError (dlFailMsg id e))
      constructor
      · rw [ihlog]
        simp [ho, CacheFS.logError, List.filterMap_cons]
      · intro id1 hmem f i n t hp hf
        rcases List.mem_cons.mp hmem with rfl | hmem1
        · simp [downloadOutcome, hp, hf] at ho
        · exact ihall id1 hmem1 f i n t hp hf
    · have ho : downloadOutcome fetch id = none := by
        rcases hoc : downloadOutcome fetch id with _ | e1
        · rfl
        · exact absurd ((download_error_iff fetch id cache_dir fs e1).mpr hoc)
            (by rw [hd]; simp)
      obtain ⟨t0, q0, hshape⟩ := download_ok_shape fetch id cache_dir fs st1 hd
      obtain ⟨ihlog, ihall⟩ := ih st1
      constructor
      · rw [ihlog]
        have hlog : st1.errorLog = fs.errorLog := by rw [hshape]; rfl
        simp [ho, hlog, List.filterMap_cons]
      · intro id1 hmem f i n t hp hf
        rcases List.mem_cons.mp hmem with rfl | hmem1
        · have hchar := download_ok_char fetch id1 cache_dir fs f i n t hp hf
          rw [hd] at hchar
          have hst : st1
              = cache_as_votable t (pjoin (pjoin (pjoin cache_dir f) i) n) fs := by
            exact Except.ok.inj hchar
          refine iterative_keeps_file fetch rest cache_dir st1 _ ?_
          rw [hst]
          exact exists_cache_as_votable_self t _ fs
        · exact ihall id1 hmem1 f i n t hp hf

/-- Witness for C4 at the spec's scenario: a batch of a valid identifier, a
malformed identifier and another valid identifier downloads both valid ones
and logs exactly one failure, without raising. -/
theorem C4_batch_continues_on_error_witness :
    (iterative_download_transmission_data wFetch ["a/b.c", "bad", "d/e.f"]
        "cache" emptyFS).exists?
      (votPath (pjoin (pjoin (pjoin "cache" "a") "b") "c")) = true ∧
    (iterative_download_transmission_data wFetch ["a/b.c", "bad", "d/e.f"]
        "cache" emptyFS).exists?
      (votPath (pjoin (pjoin (pjoin "cache" "d") "e") "f")) = true ∧
    (iterative_download_transmission_data wFetch ["a/b.c", "bad", "d/e.f"]
        "cache" emptyFS).errorLog
      = (["a/b.c", "bad", "d/e.f"].filterMap
          (fun id => (downloadOutcome wFetch id).map (dlFailMsg id))).reverse
        ++ emptyFS.errorLog := by
  obtain ⟨hlog, hall⟩ :=
    C4_batch_continues_on_error wFetch ["a/b.c", "bad", "d/e.f"] "cache" emptyFS
  refine ⟨?_, ?_, hlog⟩
  · exact hall "a/b.c" (by simp) "a" "b" "c" sampleTable (by decide) (by rfl)
  · exact hall "d/e.f" (by simp) "d" "e" "f" sampleTable (by decide) (by rfl)

/-! ## C1: when sync takes the no-change branch -/

/-- C1 (corrected): `update_filter_data` takes its no-change branch —
return `false`, touch the update timestamp, rewrite nothing — exactly when
the cached and fresh `filterID` columns are equal element-wise
(`np.array_equal`): same order and same multiplicity, not merely equal as
sets. -/
theorem C1_update_no_change_iff
    (fetch : String → Except String DataTable) (new_index : DataTable)
    (cache_dir : String) (fs : CacheFS) (old_index : DataTable)
    (old_filters new_filters : List String)
    (h1 : load_filter_index cache_dir fs = .ok old_index)
    (h2 : columnStrings old_index "filterID" = some old_filters)
    (h3 : columnStrings new_index "filterID" = some new_filters) :
    (update_filter_data fetch new_index cache_dir fs = .ok (false, fs.touchTimestamp)
      ↔ old_filters = new_filters) ∧
    fs.touchTimestamp.files = fs.files ∧
    fs.touchTimestamp.writeLog = fs.writeLog ∧
    fs.touchTimestamp.timestampTouches = fs.timestampTouches + 1 := by
  refine ⟨?_, rfl, rfl, rfl⟩
  simp only [update_filter_data, h1, h2, h3]
  by_cases h : old_filters = new_filters
  · simp [h]
  · simp only [h, if_false]
    rcases hro : removeOutdatedFilters (setdiff1d old_filters new_filters) cache_dir fs
      with e | fs1 <;> simp [h]

/-- C1 is false as stated: with cached filterIDs `[a/b.c, d/e.f]` and fresh
filterIDs `[d/e.f, a/b.c]` — equal as sets — sync does not return `false`:
it returns `true` and rewrites the index file. -/
theorem C1_set_equal_still_rewrites :
    (load_filter_index "cache" cexFS1).toOption.map (fun t => columnStrings t "filterID")
      = some (some ["a/b.c", "d/e.f"]) ∧
    columnStrings cexFreshIdx "filterID" = some ["d/e.f", "a/b.c"] ∧
    (["a/b.c", "d/e.f"] : List String).toFinset
      = (["d/e.f", "a/b.c"] : List String).toFinset ∧
    updateResultBool (update_filter_data (fun _ => .error "offline") cexFreshIdx "cache" cexFS1)
      = some true ∧
    (updateResultFS (update_filter_data (fun _ => .error "offline") cexFreshIdx
        "cache" cexFS1)).map CacheFS.writeLog = some ["cache/index.vot"] := by
  refine ⟨by decide, by decide, by decide, by decide, by decide⟩

/-- Witness for the corrected C1 at a concrete up-to-date cache. -/
theorem C1_update_no_change_iff_witness :
    (update_filter_data (fun _ => .error "offline") w1Idx "cache" w1FS
        = .ok (false, w1FS.touchTimestamp) ↔ (["a/b.c"] : List String) = ["a/b.c"]) ∧
    w1FS.touchTimestamp.files = w1FS.files ∧
    w1FS.touchTimestamp.writeLog = w1FS.writeLog ∧
    w1FS.touchTimestamp.timestampTouches = w1FS.timestampTouches + 1 := by
  exact C1_update_no_change_iff (fun _ => .error "offline") w1Idx "cache" w1FS
    ⟨["filterID"], [[.strCell "a/b.c"]]⟩ ["a/b.c"] ["a/b.c"]
    (by rfl) (by decide) (by decide)

/-! ## C5: the add/remove reconciliation scenario -/

/-- C5 (confirmed): with cached IDs {A, B, C} and fresh IDs {B, C, D}, sync
returns `true`, deletes A's transmission file, caches D's fetched data,
leaves B's and C's files untouched, and overwrites the index file with the
full fresh index; when A's file is already absent, the sync still succeeds
and returns `true`. -/
theorem C5_sync_add_remove_scenario :
    updateResultBool (update_filter_data c5Fetch c5FreshIdx "cache" c5FS) = some true ∧
    (updateResultFS (update_filter_data c5Fetch c5FreshIdx "cache" c5FS)).map
        (fun fs1 => (fs1.lookup "cache/facA/insA/fA.vot",
                     fs1.lookup "cache/facD/insD/fD.vot",
                     fs1.lookup "cache/facB/insB/fB.vot",
                     fs1.lookup "cache/facC/insC/fC.vot",
                     fs1.lookup "cache/index.vot"))
      = some (none, some (encodeVOT tD), some (encodeVOT tB), some (encodeVOT tC),
          some (encodeVOT c5FreshIdx)) ∧
    updateResultBool (update_filter_data c5Fetch c5FreshIdx "cache" c5FSnoA)
      = some true := by
  refine ⟨by decide, by decide, by decide⟩

/-! ## C8: the second sync in a row -/

/-- The four characters of `.vot` are never a suffix of a character list
ending in `/index`. -/
theorem not_suffix_vot (l : List Char) :
    ¬ (['.', 'v', 'o', 't'] <:+ (l ++ ['/', 'i', 'n', 'd', 'e', 'x'])) := by
  intro h
  obtain ⟨pre, hpre⟩ := h
  have h1 := congrArg List.reverse hpre
  rw [List.reverse_append, List.reverse_append] at h1
  have hrev4 : (['.', 'v', 'o', 't'] : List Char).reverse = ['t', 'o', 'v', '.'] := rfl
  have hrev6 : (['/', 'i', 'n', 'd', 'e', 'x'] : List Char).reverse
      = ['x', 'e', 'd', 'n', 'i', '/'] := rfl
  rw [hrev4, hrev6] at h1
  simp only [List.cons_append, List.nil_append] at h1
  injection h1 with h2 h3
  exact absurd h2 (by decide)

/-- The index write path `cacheDir/index` does not already end in `.vot`. -/
theorem strEndsWith_index_vot (cache_dir : String) :
    strEndsWith (pjoin cache_dir "index") ".vot" = false := by
  rw [strEndsWith]
  by_contra hc
  rw [Bool.not_eq_false] at hc
  have hsuf := List.isSuffixOf_iff_suffix.mp hc
  have hdata : (pjoin cache_dir "index").data
      = cache_dir.data ++ ['/', 'i', 'n', 'd', 'e', 'x'] := by
    rw [pjoin]
    simp only [String.data_append, List.append_assoc]
    rfl
  rw [hdata] at hsuf
  exact not_suffix_vot cache_dir.data hsuf

/-- The path written for the index (`cacheDir/index` plus the appended
extension) is the path `load_filter_index` reads. -/
theorem votPath_index (cache_dir : String) :
    votPath (pjoin cache_dir "index") = pjoin cache_dir "index.vot" := by
  rw [votPath, strEndsWith_index_vot]
  simp only [Bool.false_eq_true, if_false]
  apply String.ext
  rw [pjoin, pjoin]
  simp only [String.data_append, List.append_assoc]
  rfl

/-- `getD` after mapping a text-preserving cell function reads the same
text. -/
theorem cellText_getD_map : ∀ (r : List Cell) (i : Nat) (g : Cell → Cell),
    (∀ c, cellText (g c) = cellText c) →
    cellText ((r.map g).getD i (.strCell "")) = cellText (r.getD i (.strCell ""))
  | [], _, _, _ => rfl
  | c :: r, 0, g, hg => by simp [hg]
  | c :: r, (i + 1), g, hg => by simpa using cellText_getD_map r i g hg

/-- Mapping a text-preserving function over every cell leaves every column's
text values unchanged. -/
theorem columnStrings_map_rows (t : DataTable) (name : String) (g : Cell → Cell)
    (hg : ∀ c, cellText (g c) = cellText c) :
    columnStrings ⟨t.colNames, t.rows.map (fun r => r.map g)⟩ name
      = columnStrings t name := by
  simp only [columnStrings, getColumn]
  rcases hidx : t.colNames.indexOf? name with _ | i
  · rfl
  · simp only [Option.map_some', List.map_map]
    refine congrArg some (List.map_congr_left fun r _ => ?_)
    simp only [Function.comp]
    exact cellText_getD_map r i g hg

/-- Text normalization does not change the text of any column. -/
theorem columnStrings_byte_to_literal_strings (t : DataTable) (name : String) :
    columnStrings (byte_to_literal_strings t) name = columnStrings t name :=
  columnStrings_map_rows t name (fun c => .strCell (cellText c)) (fun _ => rfl)

/-- VOTable encoding does not change the text of any column. -/
theorem columnStrings_encodeVOT (t : DataTable) (name : String) :
    columnStrings (encodeVOT t) name = columnStrings t name :=
  columnStrings_map_rows t name (fun c => .byteCell (cellText c)) (fun _ => rfl)

/-- Index loading only reads the file map. -/
theorem load_filter_index_congr (cache_dir : String) (fs fsb : CacheFS)
    (hfl : fs.files = fsb.files) :
    load_filter_index cache_dir fs = load_filter_index cache_dir fsb := by
  have hex : fs.exists? (pjoin cache_dir "index.vot")
      = fsb.exists? (pjoin cache_dir "index.vot") := by
    rw [CacheFS.exists?, CacheFS.exists?, CacheFS.lookup, CacheFS.lookup, hfl]
  have hdf : df_from_votable (pjoin cache_dir "index.vot") fs
      = df_from_votable (pjoin cache_dir "index.vot") fsb := by
    rw [df_from_votable, df_from_votable, CacheFS.lookup, CacheFS.lookup, hfl]
  simp only [load_filter_index, load_filter_indexFS, hex, hdf]
  split <;> rfl

/-- C8 (corrected): whenever a first sync returns at all — with `true` or
`false` — a second sync against the same fresh index returns `false` and
changes nothing but the timestamp (in particular it does not write the
index file).  The claim's stronger assertion that the first call also never
writes the index file is false: when the cached index differs, the first
call rewrites it. -/
theorem C8_second_sync_returns_false
    (fetch : String → Except String DataTable) (new_index : DataTable)
    (cache_dir : String) (fs fs1 : CacheFS) (b : Bool)
    (h : update_filter_data fetch new_index cache_dir fs = .ok (b, fs1)) :
    update_filter_data fetch new_index cache_dir fs1
      = .ok (false, fs1.touchTimestamp) ∧
    fs1.touchTimestamp.writeLog = fs1.writeLog ∧
    fs1.touchTimestamp.files = fs1.files := by
  refine ⟨?_, rfl, rfl⟩
  rcases hli : load_filter_index cache_dir fs with e | old_index
  · rw [update_filter_data, hli] at h
    simp at h
  · rcases hcolOld : columnStrings old_index "filterID" with _ | old_filters
    · rw [update_filter_data, hli] at h
      simp only [hcolOld] at h
      simp at h
    · rcases hcolNew : columnStrings new_index "filterID" with _ | new_filters
      · rw [update_filter_data, hli] at h
        simp only [hcolOld, hcolNew] at h
        simp at h
      · rw [update_filter_data, hli] at h
        simp only [hcolOld, hcolNew] at h
        by_cases heq : old_filters = new_filters
        · rw [if_pos heq] at h
          have h2 : false = b ∧ fs.touchTimestamp = fs1 := by simpa using h
          obtain ⟨hb, hfs1⟩ := h2
          have hli1 : load_filter_index cache_dir fs1 = .ok old_index := by
            rw [← hfs1, load_filter_index_congr cache_dir fs.touchTimestamp fs rfl]
            exact hli
          rw [update_filter_data, hli1]
          simp only [hcolOld, hcolNew, if_pos heq]
        · rw [if_neg heq] at h
          rcases hro : removeOutdatedFilters (setdiff1d old_filters new_filters)
              cache_dir fs with e | fs2
          · simp only [hro] at h
            simp at h
          · simp only [hro] at h
            have h2 : true = b ∧
                (cache_as_votable new_index (pjoin cache_dir "index")
                  (iterative_download_transmission_data fetch
                    (setdiff1d new_filters old_filters) cache_dir fs2)).touchTimestamp
                  = fs1 := by simpa using h
            obtain ⟨hb, hfs1⟩ := h2
            have hlook : fs1.lookup (pjoin cache_dir "index.vot")
                = some (encodeVOT new_index) := by
              rw [← hfs1]
              simp [CacheFS.lookup, CacheFS.touchTimestamp, cache_as_votable,
                votPath_index, List.find?]
            have hex : fs1.exists? (pjoin cache_dir "index.vot") = true := by
              rw [CacheFS.exists?, hlook]
              rfl
            have hli1 : load_filter_index cache_dir fs1
                = .ok (byte_to_literal_strings (encodeVOT new_index)) := by
              rw [load_filter_index, load_filter_indexFS]
              simp only [hex, if_true]
              rw [df_from_votable, hlook]
            have hcol1 : columnStrings (byte_to_literal_strings (encodeVOT new_index))
                "filterID" = some new_filters := by
              rw [columnStrings_byte_to_literal_strings, columnStrings_encodeVOT]
              exact hcolNew
            rw [update_filter_data, hli1]
            simp [hcol1, hcolNew]

/-- Witness for C8: a cache already in sync — the first call returned
`false` — and the second call also returns `false`, touching only the
timestamp. -/
theorem C8_second_sync_returns_false_witness :
    update_filter_data (fun _ => .error "offline") w1Idx "cache" w1FS.touchTimestamp
      = .ok (false, w1FS.touchTimestamp.touchTimestamp) ∧
    w1FS.touchTimestamp.touchTimestamp.writeLog = w1FS.touchTimestamp.writeLog ∧
    w1FS.touchTimestamp.touchTimestamp.files = w1FS.touchTimestamp.files := by
  exact C8_second_sync_returns_false (fun _ => .error "offline") w1Idx "cache"
    w1FS w1FS.touchTimestamp false (by rfl)

/-- C8 is false as stated: with an out-of-date cache and an unchanged remote
index, the first of two consecutive syncs writes the index file (the second
returns `false`), contradicting that neither call writes to it. -/
theorem C8_first_sync_writes_index :
    updateResultBool (update_filter_data (fun _ => .error "offline") c8FreshIdx
        "cache" c8FS) = some true ∧
    (updateResultFS (update_filter_data (fun _ => .error "offline") c8FreshIdx
        "cache" c8FS)).map CacheFS.writeLog = some ["cache/index.vot"] ∧
    c8FS.writeLog = [] ∧
    ((updateResultFS (update_filter_data (fun _ => .error "offline") c8FreshIdx
        "cache" c8FS)).map (fun s1 =>
          updateResultBool (update_filter_data (fun _ => .error "offline") c8FreshIdx
            "cache" s1)))
      = some (some false) := by
  refine ⟨by decide, by decide, by decide, by decide⟩

/-- C2 is false as stated: `"a..b"` splits into the three segments
`["a", "", "b"]`, one of which is empty, yet it is not rejected —
`download_transmission_data` accepts it and caches a file for it. -/
theorem C2_empty_segment_accepted :
    splitId "a..b" = ["a", "", "b"] ∧
    parseFilterId "a..b" = some ("a", "", "b") ∧
    download_transmission_data (fun _ => .ok sampleTable) "a..b" "cache" emptyFS
      ≠ .error (.malformedId "a..b") ∧
    (download_transmission_data (fun _ => .ok sampleTable) "a..b" "cache" emptyFS).isOk
      = true := by
  refine ⟨by decide, by decide, ?_, by decide⟩
  intro h
  exact absurd (congrArg Except.isOk h) (by decide)
